import Mathlib

/-!
Verification of the decode-and-flatten pipeline of
`src/programs/native_token_lending.rs` (the record projector for the
native token lending program of a Solana instruction indexer).

Shallow embedding notes.

The source file is a single function
`process_native_token_lending_instruction` taking the invocation context
(`transaction_hash`, `instruction_index`, `data`, `timestamp`,
`parent_index`), unpacking the byte payload through the external
`spl_token_lending` codec, and matching the fourteen decoded variants to
an `InstructionSet`.

Two identifiers appearing in the body of the source function are not
bound anywhere in the file: `instruction` (read for every
`InstructionFunction` field except `function_name`) and
`collateral_amount` inside the field-free `RefreshObligation` arm. The
embedding passes them as explicit extra arguments (`instruction :
Instruction`, `collateral_amount : Nat`), which gives the written code a
semantics while exposing exactly which outputs depend on the unbound
names.

The output record structs (`InstructionFunction`, `InstructionProperty`,
`InstructionSet`), the crate-level `Instruction` type, the decoder
`LendingInstruction::unpack` and the base58 rendering of public keys all
live outside the provided source tree; they are modelled from the spec,
as flagged in their doc comments. Machine integers are modelled as `Nat`
(`u64`, `u8`) and `Int` (`i16`); `NaiveDateTime` timestamps are opaque
and modelled as `Int`; the diagnostic side channel of the `error!` macro
is modelled by returning the list of emitted log messages alongside the
result.
-/

/-- Modelled from the spec: a 32-byte public key, as handled by the
external `solana_sdk` crate. Byte arrays are byte lists. -/
abbrev Pubkey := List Nat

/-- The base58 alphabet used by the canonical Solana public key
rendering. -/
def base58Alphabet : List Char :=
  "123456789ABCDEFGHJKLMNPQRSTUVWXYZabcdefghijkmnopqrstuvwxyz".data

/-- Little-endian base58 digits of a natural number, with explicit fuel
for termination; fuel at least the bit length of the number is enough. -/
def base58DigitsAux : Nat → Nat → List Nat
  | 0, _ => []
  | fuel + 1, n => if n = 0 then [] else n % 58 :: base58DigitsAux fuel (n / 58)

/-- A byte list read as a big-endian base-256 natural number. -/
def bytesToNat (bytes : List Nat) : Nat :=
  bytes.foldl (fun acc b => acc * 256 + b) 0

/-- Modelled from the spec: the canonical base58 rendering of a public
key (the `Display` implementation of `solana_sdk::pubkey::Pubkey`, which
is external to the source tree): each leading zero byte becomes the
character 1, and the remaining value is written big-endian in the base58
alphabet. -/
def pubkeyToString (k : Pubkey) : String :=
  let value := bytesToNat k
  let digits := (base58DigitsAux (8 * k.length + 1) value).reverse
  String.mk
    (List.replicate (k.takeWhile (· == 0)).length '1'
      ++ digits.map (fun d => base58Alphabet.getD d '1'))

/-- Modelled from the spec: `Pubkey::new_from_array`, wrapping a 32-byte
array as a public key (external `solana_sdk` constructor). -/
def pubkeyNewFromArray (bytes : List Nat) : Pubkey := bytes

/-- Modelled from the spec: the fee sub-aggregate of the nested reserve
configuration (external `spl_token_lending` type); only the fields the
projector reads are modelled. -/
structure ReserveFees where
  borrow_fee_wad : Nat
  flash_loan_fee_wad : Nat
  host_fee_percentage : Nat
deriving DecidableEq

/-- Modelled from the spec: the nested configuration aggregate consumed
by `InitReserve` (external `spl_token_lending` type); only the fields
the projector reads are modelled. -/
structure ReserveConfig where
  optimal_utilization_rate : Nat
  loan_to_value_ratio : Nat
  liquidation_threshold : Nat
  min_borrow_rate : Nat
  optimal_borrow_rate : Nat
  max_borrow_rate : Nat
  fees : ReserveFees
deriving DecidableEq

/-- Modelled from the spec: the tagged union of the fourteen lending
operations produced by the external decoder (`spl_token_lending`
`LendingInstruction`), in the order of the mapping table. -/
inductive LendingInstruction where
  | initLendingMarket (owner : Pubkey) (quote_currency : List Nat)
  | setLendingMarketOwner (new_owner : Pubkey)
  | initReserve (liquidity_amount : Nat) (config : ReserveConfig)
  | refreshReserve
  | depositReserveLiquidity (liquidity_amount : Nat)
  | redeemReserveCollateral (collateral_amount : Nat)
  | initObligation
  | refreshObligation
  | depositObligationCollateral (collateral_amount : Nat)
  | withdrawObligationCollateral (collateral_amount : Nat)
  | borrowObligationLiquidity (liquidity_amount : Nat)
  | repayObligationLiquidity (liquidity_amount : Nat)
  | liquidateObligation (liquidity_amount : Nat)
  | flashLoan (amount : Nat)
deriving DecidableEq

/-- Modelled from the spec: the single decode error kind of the error
taxonomy. -/
inductive DecodeError where
  | unrecognizedOrMalformedInstruction
deriving DecidableEq

/-- Read one byte from the front of a buffer. -/
def readU8 : List Nat → Option (Nat × List Nat)
  | [] => none
  | b :: rest => some (b, rest)

/-- Read a little-endian `u64` from the front of a buffer. -/
def readU64 : List Nat → Option (Nat × List Nat)
  | b0 :: b1 :: b2 :: b3 :: b4 :: b5 :: b6 :: b7 :: rest =>
      some
        (b0 + 256 * (b1 + 256 * (b2 + 256 * (b3 + 256 *
          (b4 + 256 * (b5 + 256 * (b6 + 256 * b7)))))), rest)
  | _ => none

/-- Read a 32-byte array from the front of a buffer. -/
def readBytes32 (data : List Nat) : Option (List Nat × List Nat) :=
  if 32 ≤ data.length then some (data.take 32, data.drop 32) else none

/-- Modelled from the spec: the payload parser of the external decoder,
one case per discriminant tag 0 to 13, in the order of the mapping
table; an unknown tag or a truncated payload is rejected. -/
def parsePayload (tag : Nat) (rest : List Nat) : Option LendingInstruction :=
  match tag with
  | 0 => do
      let (owner, r1) ← readBytes32 rest
      let (quote_currency, _) ← readBytes32 r1
      pure (.initLendingMarket owner quote_currency)
  | 1 => do
      let (new_owner, _) ← readBytes32 rest
      pure (.setLendingMarketOwner new_owner)
  | 2 => do
      let (liquidity_amount, r1) ← readU64 rest
      let (our, r2) ← readU8 r1
      let (ltv, r3) ← readU8 r2
      let (lt, r4) ← readU8 r3
      let (minbr, r5) ← readU8 r4
      let (optbr, r6) ← readU8 r5
      let (maxbr, r7) ← readU8 r6
      let (bfw, r8) ← readU64 r7
      let (flfw, r9) ← readU64 r8
      let (hfp, _) ← readU8 r9
      pure (.initReserve liquidity_amount ⟨our, ltv, lt, minbr, optbr, maxbr, ⟨bfw, flfw, hfp⟩⟩)
  | 3 => pure .refreshReserve
  | 4 => do
      let (a, _) ← readU64 rest
      pure (.depositReserveLiquidity a)
  | 5 => do
      let (a, _) ← readU64 rest
      pure (.redeemReserveCollateral a)
  | 6 => pure .initObligation
  | 7 => pure .refreshObligation
  | 8 => do
      let (a, _) ← readU64 rest
      pure (.depositObligationCollateral a)
  | 9 => do
      let (a, _) ← readU64 rest
      pure (.withdrawObligationCollateral a)
  | 10 => do
      let (a, _) ← readU64 rest
      pure (.borrowObligationLiquidity a)
  | 11 => do
      let (a, _) ← readU64 rest
      pure (.repayObligationLiquidity a)
  | 12 => do
      let (a, _) ← readU64 rest
      pure (.liquidateObligation a)
  | 13 => do
      let (a, _) ← readU64 rest
      pure (.flashLoan a)
  | _ => none

/-- Modelled from the spec: `LendingInstruction::unpack` of the external
codec — leading discriminant tag, then the payload of that variant;
pure and total, rejecting an empty buffer, an unknown tag or a
truncated payload with the single error kind. -/
def LendingInstruction.unpack (data : List Nat) : Except DecodeError LendingInstruction :=
  match data with
  | [] => .error .unrecognizedOrMalformedInstruction
  | tag :: rest =>
    match parsePayload tag rest with
    | some li => .ok li
    | none => .error .unrecognizedOrMalformedInstruction

/-- Modelled from the spec: the crate-level output record identifying
what happened (one per successful decode) — composite key, parent
index, program identity, kebab-case operation name, timestamp. The
struct is defined at the crate root, outside the provided source tree. -/
structure InstructionFunction where
  tx_instruction_id : Int
  transaction_hash : String
  parent_index : Int
  program : String
  function_name : String
  timestamp : Int
deriving DecidableEq

/-- Modelled from the spec: the crate-level output record for one
flattened field — composite key, parent index, field key, string
rendered value, path-like parent key, timestamp. The struct is defined
at the crate root, outside the provided source tree. -/
structure InstructionProperty where
  tx_instruction_id : Int
  transaction_hash : String
  parent_index : Int
  key : String
  value : String
  parent_key : String
  timestamp : Int
deriving DecidableEq

/-- Modelled from the spec: the final output wrapper — exactly one
function record and an ordered property list. -/
structure InstructionSet where
  function : InstructionFunction
  properties : List InstructionProperty
deriving DecidableEq

/-- Modelled from the spec: the crate-level `Instruction` value the
source body reads through the unbound identifier `instruction`; it
carries the context fields the function record copies. -/
structure Instruction where
  tx_instruction_id : Int
  transaction_hash : String
  parent_index : Int
  program : String
  timestamp : Int
deriving DecidableEq

/-- The diagnostic message emitted by the `error!` call in the failure
branch of the source. -/
def unrecognisedMessage : String :=
  "[processors/programs/native_token_swap] FATAL: Unrecognised instruction."

/-- The variant-by-variant projection: the body of the `match` on the
decoded instruction in `process_native_token_lending_instruction`,
embedded arm for arm. The function record fields come from the unbound
source identifier `instruction` (here the explicit argument of that
name); the property records come from the function parameters; the
`refreshObligation` arm renders the unbound source identifier
`collateral_amount` (here the explicit argument of that name). -/
def projectInstruction (transaction_hash : String) (instruction_index : Int)
    (timestamp : Int) (parent_index : Int) (instruction : Instruction)
    (collateral_amount : Nat) : LendingInstruction → InstructionSet
  | .initLendingMarket owner quote_currency =>
    { function :=
      { tx_instruction_id := instruction.tx_instruction_id
        transaction_hash := instruction.transaction_hash
        parent_index := instruction.parent_index
        program := instruction.program
        function_name := "init-lending-market"
        timestamp := instruction.timestamp }
      properties :=
      [ { tx_instruction_id := instruction_index
          transaction_hash := transaction_hash
          parent_index := parent_index
          key := "owner"
          value := pubkeyToString owner
          parent_key := ""
          timestamp := timestamp },
        { tx_instruction_id := instruction_index
          transaction_hash := transaction_hash
          parent_index := parent_index
          key := "quote_currency"
          value := pubkeyToString (pubkeyNewFromArray quote_currency)
          parent_key := ""
          timestamp := timestamp } ] }
  | .setLendingMarketOwner new_owner =>
    { function :=
      { tx_instruction_id := instruction.tx_instruction_id
        transaction_hash := instruction.transaction_hash
        parent_index := instruction.parent_index
        program := instruction.program
        function_name := "set-lending-market-owner"
        timestamp := instruction.timestamp }
      properties :=
      [ { tx_instruction_id := instruction_index
          transaction_hash := transaction_hash
          parent_index := parent_index
          key := "new_owner"
          value := pubkeyToString new_owner
          parent_key := ""
          timestamp := timestamp } ] }
  | .initReserve liquidity_amount config =>
    { function :=
      { tx_instruction_id := instruction.tx_instruction_id
        transaction_hash := instruction.transaction_hash
        parent_index := instruction.parent_index
        program := instruction.program
        function_name := "init-reserve"
        timestamp := instruction.timestamp }
      properties :=
      [ { tx_instruction_id := instruction_index
          transaction_hash := transaction_hash
          parent_index := parent_index
          key := "liquidity_amount"
          value := toString liquidity_amount
          parent_key := ""
          timestamp := timestamp },
        { tx_instruction_id := instruction_index
          transaction_hash := transaction_hash
          parent_index := parent_index
          key := "flash_loan_fee_wad"
          value := toString config.fees.flash_loan_fee_wad
          parent_key := "fees"
          timestamp := timestamp },
        { tx_instruction_id := instruction_index
          transaction_hash := transaction_hash
          parent_index := parent_index
          key := "borrow_fee_wad"
          value := toString config.fees.borrow_fee_wad
          parent_key := "config/fees"
          timestamp := timestamp },
        { tx_instruction_id := instruction_index
          transaction_hash := transaction_hash
          parent_index := parent_index
          key := "host_fee_percentage"
          value := toString config.fees.host_fee_percentage
          parent_key := "config/fees"
          timestamp := timestamp },
        { tx_instruction_id := instruction_index
          transaction_hash := transaction_hash
          parent_index := parent_index
          key := "liquidation_threshold"
          value := toString config.liquidation_threshold
          parent_key := "config"
          timestamp := timestamp },
        { tx_instruction_id := instruction_index
          transaction_hash := transaction_hash
          parent_index := parent_index
          key := "loan_to_value_ratio"
          value := toString config.loan_to_value_ratio
          parent_key := "config"
          timestamp := timestamp },
        { tx_instruction_id := instruction_index
          transaction_hash := transaction_hash
          parent_index := parent_index
          key := "max_borrow_rate"
          value := toString config.max_borrow_rate
          parent_key := "config"
          timestamp := timestamp },
        { tx_instruction_id := instruction_index
          transaction_hash := transaction_hash
          parent_index := parent_index
          key := "min_borrow_rate"
          value := toString config.min_borrow_rate
          parent_key := "config"
          timestamp := timestamp },
        { tx_instruction_id := instruction_index
          transaction_hash := transaction_hash
          parent_index := parent_index
          key := "optimal_borrow_rate"
          value := toString config.optimal_borrow_rate
          parent_key := "config"
          timestamp := timestamp },
        { tx_instruction_id := instruction_index
          transaction_hash := transaction_hash
          parent_index := parent_index
          key := "optimal_utilization_rate"
          value := toString config.optimal_utilization_rate
          parent_key := "config"
          timestamp := timestamp } ] }
  | .refreshReserve =>
    { function :=
      { tx_instruction_id := instruction.tx_instruction_id
        transaction_hash := instruction.transaction_hash
        parent_index := instruction.parent_index
        program := instruction.program
        function_name := "refresh-reserve"
        timestamp := instruction.timestamp }
      properties := [] }
  | .depositReserveLiquidity liquidity_amount =>
    { function :=
      { tx_instruction_id := instruction.tx_instruction_id
        transaction_hash := instruction.transaction_hash
        parent_index := instruction.parent_index
        program := instruction.program
        function_name := "deposit-reserve-liquidity"
        timestamp := instruction.timestamp }
      properties :=
      [ { tx_instruction_id := instruction_index
          transaction_hash := transaction_hash
          parent_index := parent_index
          key := "liquidity_amount"
          value := toString liquidity_amount
          parent_key := ""
          timestamp := timestamp } ] }
  | .redeemReserveCollateral amount =>
    { function :=
      { tx_instruction_id := instruction.tx_instruction_id
        transaction_hash := instruction.transaction_hash
        parent_index := instruction.parent_index
        program := instruction.program
        function_name := "redeem-reserve-collateral"
        timestamp := instruction.timestamp }
      properties :=
      [ { tx_instruction_id := instruction_index
          transaction_hash := transaction_hash
          parent_index := parent_index
          key := "collateral_amount"
          value := toString amount
          parent_key := ""
          timestamp := timestamp } ] }
  | .initObligation =>
    { function :=
      { tx_instruction_id := instruction.tx_instruction_id
        transaction_hash := instruction.transaction_hash
        parent_index := instruction.parent_index
        program := instruction.program
        function_name := "init-obligation"
        timestamp := instruction.timestamp }
      properties := [] }
  | .refreshObligation =>
    { function :=
      { tx_instruction_id := instruction.tx_instruction_id
        transaction_hash := instruction.transaction_hash
        parent_index := instruction.parent_index
        program := instruction.program
        function_name := "refresh-obligation"
        timestamp := instruction.timestamp }
      properties :=
      [ { tx_instruction_id := instruction_index
          transaction_hash := transaction_hash
          parent_index := parent_index
          key := "collateral_amount"
          value := toString collateral_amount
          parent_key := ""
          timestamp := timestamp } ] }
  | .depositObligationCollateral amount =>
    { function :=
      { tx_instruction_id := instruction.tx_instruction_id
        transaction_hash := instruction.transaction_hash
        parent_index := instruction.parent_index
        program := instruction.program
        function_name := "deposit-obligation-collateral"
        timestamp := instruction.timestamp }
      properties :=
      [ { tx_instruction_id := instruction_index
          transaction_hash := transaction_hash
          parent_index := parent_index
          key := "collateral_amount"
          value := toString amount
          parent_key := ""
          timestamp := timestamp } ] }
  | .withdrawObligationCollateral amount =>
    { function :=
      { tx_instruction_id := instruction.tx_instruction_id
        transaction_hash := instruction.transaction_hash
        parent_index := instruction.parent_index
        program := instruction.program
        function_name := "withdraw-obligation-collateral"
        timestamp := instruction.timestamp }
      properties :=
      [ { tx_instruction_id := instruction_index
          transaction_hash := transaction_hash
          parent_index := parent_index
          key := "collateral_amount"
          value := toString amount
          parent_key := ""
          timestamp := timestamp } ] }
  | .borrowObligationLiquidity liquidity_amount =>
    { function :=
      { tx_instruction_id := instruction.tx_instruction_id
        transaction_hash := instruction.transaction_hash
        parent_index := instruction.parent_index
        program := instruction.program
        function_name := "borrow-obligation-liquidity"
        timestamp := instruction.timestamp }
      properties :=
      [ { tx_instruction_id := instruction_index
          transaction_hash := transaction_hash
          parent_index := parent_index
          key := "liquidity_amount"
          value := toString liquidity_amount
          parent_key := ""
          timestamp := timestamp } ] }
  | .repayObligationLiquidity liquidity_amount =>
    { function :=
      { tx_instruction_id := instruction.tx_instruction_id
        transaction_hash := instruction.transaction_hash
        parent_index := instruction.parent_index
        program := instruction.program
        function_name := "repay-obligation-liquidity"
        timestamp := instruction.timestamp }
      properties :=
      [ { tx_instruction_id := instruction_index
          transaction_hash := transaction_hash
          parent_index := parent_index
          key := "liquidity_amount"
          value := toString liquidity_amount
          parent_key := ""
          timestamp := timestamp } ] }
  | .liquidateObligation liquidity_amount =>
    { function :=
      { tx_instruction_id := instruction.tx_instruction_id
        transaction_hash := instruction.transaction_hash
        parent_index := instruction.parent_index
        program := instruction.program
        function_name := "liquidate-obligation"
        timestamp := instruction.timestamp }
      properties :=
      [ { tx_instruction_id := instruction_index
          transaction_hash := transaction_hash
          parent_index := parent_index
          key := "liquidity_amount"
          value := toString liquidity_amount
          parent_key := ""
          timestamp := timestamp } ] }
  | .flashLoan amount =>
    { function :=
      { tx_instruction_id := instruction.tx_instruction_id
        transaction_hash := instruction.transaction_hash
        parent_index := instruction.parent_index
        program := instruction.program
        function_name := "flash-loan"
        timestamp := instruction.timestamp }
      properties :=
      [ { tx_instruction_id := instruction_index
          transaction_hash := transaction_hash
          parent_index := parent_index
          key := "amount"
          value := toString amount
          parent_key := ""
          timestamp := timestamp } ] }

/-- `process_native_token_lending_instruction`, embedded: unpack the
data, project a successful decode through the match above, otherwise
emit the single `error!` diagnostic and yield no result. The second
component is the list of log messages the call emits. -/
def process_native_token_lending_instruction (transaction_hash : String)
    (instruction_index : Int) (data : List Nat) (timestamp : Int)
    (parent_index : Int) (instruction : Instruction)
    (collateral_amount : Nat) : Option InstructionSet × List String :=
  match LendingInstruction.unpack data with
  | .ok lending_instruction =>
    (some (projectInstruction transaction_hash instruction_index timestamp
      parent_index instruction collateral_amount lending_instruction), [])
  | .error _ => (none, [unrecognisedMessage])

/-- From the spec, not the source: the kebab-case function name the
mapping table of section 4.2 assigns to each variant. -/
def specFunctionName : LendingInstruction → String
  | .initLendingMarket _ _ => "init-lending-market"
  | .setLendingMarketOwner _ => "set-lending-market-owner"
  | .initReserve _ _ => "init-reserve"
  | .refreshReserve => "refresh-reserve"
  | .depositReserveLiquidity _ => "deposit-reserve-liquidity"
  | .redeemReserveCollateral _ => "redeem-reserve-collateral"
  | .initObligation => "init-obligation"
  | .refreshObligation => "refresh-obligation"
  | .depositObligationCollateral _ => "deposit-obligation-collateral"
  | .withdrawObligationCollateral _ => "withdraw-obligation-collateral"
  | .borrowObligationLiquidity _ => "borrow-obligation-liquidity"
  | .repayObligationLiquidity _ => "repay-obligation-liquidity"
  | .liquidateObligation _ => "liquidate-obligation"
  | .flashLoan _ => "flash-loan"

/-- From the spec, not the source: the (key, parent key) pairs of the
row the mapping table of section 4.2 gives each variant, in table
order. -/
def specKeyParents : LendingInstruction → List (String × String)
  | .initLendingMarket _ _ => [("owner", ""), ("quote_currency", "")]
  | .setLendingMarketOwner _ => [("new_owner", "")]
  | .initReserve _ _ =>
      [("liquidity_amount", ""),
       ("flash_loan_fee_wad", "fees"),
       ("borrow_fee_wad", "config/fees"),
       ("host_fee_percentage", "config/fees"),
       ("liquidation_threshold", "config"),
       ("loan_to_value_ratio", "config"),
       ("max_borrow_rate", "config"),
       ("min_borrow_rate", "config"),
       ("optimal_borrow_rate", "config"),
       ("optimal_utilization_rate", "config")]
  | .refreshReserve => []
  | .depositReserveLiquidity _ => [("liquidity_amount", "")]
  | .redeemReserveCollateral _ => [("collateral_amount", "")]
  | .initObligation => []
  | .refreshObligation => [("collateral_amount", "")]
  | .depositObligationCollateral _ => [("collateral_amount", "")]
  | .withdrawObligationCollateral _ => [("collateral_amount", "")]
  | .borrowObligationLiquidity _ => [("liquidity_amount", "")]
  | .repayObligationLiquidity _ => [("liquidity_amount", "")]
  | .liquidateObligation _ => [("liquidity_amount", "")]
  | .flashLoan _ => [("amount", "")]

/-- From the spec, not the source: the string rendering section 3
prescribes for the fields of each variant, in declaration order —
decimal for the integer fields, canonical base58 for the public-key
shaped fields (`owner`, `quote_currency`, `new_owner`). The
`refreshObligation` row renders the value the source reads through its
unbound identifier, since the payload itself carries no field. -/
def specRenderedValues (collateral_amount : Nat) : LendingInstruction → List String
  | .initLendingMarket owner quote_currency =>
      [pubkeyToString owner, pubkeyToString quote_currency]
  | .setLendingMarketOwner new_owner => [pubkeyToString new_owner]
  | .initReserve liquidity_amount config =>
      [toString liquidity_amount,
       toString config.fees.flash_loan_fee_wad,
       toString config.fees.borrow_fee_wad,
       toString config.fees.host_fee_percentage,
       toString config.liquidation_threshold,
       toString config.loan_to_value_ratio,
       toString config.max_borrow_rate,
       toString config.min_borrow_rate,
       toString config.optimal_borrow_rate,
       toString config.optimal_utilization_rate]
  | .refreshReserve => []
  | .depositReserveLiquidity a => [toString a]
  | .redeemReserveCollateral a => [toString a]
  | .initObligation => []
  | .refreshObligation => [toString collateral_amount]
  | .depositObligationCollateral a => [toString a]
  | .withdrawObligationCollateral a => [toString a]
  | .borrowObligationLiquidity a => [toString a]
  | .repayObligationLiquidity a => [toString a]
  | .liquidateObligation a => [toString a]
  | .flashLoan a => [toString a]

/-- A fixed `Instruction` value used by concrete witnesses. -/
def sampleInstruction : Instruction :=
  { tx_instruction_id := 9
    transaction_hash := "OTHER"
    parent_index := 4
    program := "lending"
    timestamp := 77 }

/-- Claim C1: for every one of the fourteen decoded instruction
variants, projecting it with an instruction context yields exactly one
InstructionFunction (the single `function` field of the returned
InstructionSet) whose `function_name` is the kebab-case name the
mapping table of section 4.2 gives that variant, and a property list
whose (key, parent key) pairs exactly match the row of that variant in
the table. -/
theorem projection_matches_table (th : String) (ii ts pidx : Int)
    (instr : Instruction) (ca : Nat) (li : LendingInstruction) :
    (projectInstruction th ii ts pidx instr ca li).function.function_name =
      specFunctionName li ∧
    (projectInstruction th ii ts pidx instr ca li).properties.map
      (fun p => (p.key, p.parent_key)) = specKeyParents li := by
  cases li <;> exact ⟨rfl, rfl⟩

/-- Claim C2: for every context and byte buffer, the projection returns
no result exactly when the decoder rejects the buffer; in that case it
emits exactly one diagnostic message, and on a successful decode it
returns the projected InstructionSet with no diagnostic. The embedding
is total, so no unhandled fault can arise. -/
theorem project_none_iff_decode_fails (th : String) (ii : Int)
    (data : List Nat) (ts pidx : Int) (instr : Instruction) (ca : Nat) :
    ((process_native_token_lending_instruction th ii data ts pidx instr ca).fst = none ↔
      LendingInstruction.unpack data = .error .unrecognizedOrMalformedInstruction) ∧
    ((process_native_token_lending_instruction th ii data ts pidx instr ca).fst = none →
      (process_native_token_lending_instruction th ii data ts pidx instr ca).snd =
        [unrecognisedMessage]) ∧
    (∀ li, LendingInstruction.unpack data = .ok li →
      process_native_token_lending_instruction th ii data ts pidx instr ca =
        (some (projectInstruction th ii ts pidx instr ca li), [])) := by
  refine ⟨?_, ?_, ?_⟩
  · cases h : LendingInstruction.unpack data with
    | ok li => simp [process_native_token_lending_instruction, h]
    | error e => cases e; simp [process_native_token_lending_instruction, h]
  · cases h : LendingInstruction.unpack data with
    | ok li => simp [process_native_token_lending_instruction, h]
    | error e => cases e; simp [process_native_token_lending_instruction, h]
  · intro li h
    simp [process_native_token_lending_instruction, h]

/-- Witness for claim C2 at a concrete failing buffer: the unknown tag
255 yields no result and exactly one diagnostic message. -/
theorem project_none_iff_decode_fails_witness :
    (process_native_token_lending_instruction "TX" 0 [255] 0 0 sampleInstruction 0).fst =
      none ∧
    (process_native_token_lending_instruction "TX" 0 [255] 0 0 sampleInstruction 0).snd =
      [unrecognisedMessage] := by
  have h := project_none_iff_decode_fails "TX" 0 [255] 0 0 sampleInstruction 0
  have hn := h.1.mpr rfl
  exact ⟨hn, h.2.1 hn⟩

/-- Counterexample to claim C3 as stated: at a concrete decoded
InitReserve instruction the projected property list does not have
exactly 9 entries. -/
theorem initReserve_nine_entries_cex :
    (projectInstruction "TX" 0 0 0 sampleInstruction 0
      (.initReserve 1 ⟨2, 3, 4, 5, 6, 7, ⟨8, 9, 10⟩⟩)).properties.length ≠ 9 := by
  decide

/-- Claim C3 as amended: projecting a decoded InitReserve instruction
yields a property list with exactly 10 entries — `liquidity_amount`
with empty parent key plus nine configuration fields, with parent key
`fees` for `flash_loan_fee_wad`, `config/fees` for `borrow_fee_wad`
and `host_fee_percentage`, and `config` for the remaining
configuration fields. -/
theorem initReserve_ten_entries (th : String) (ii ts pidx : Int)
    (instr : Instruction) (ca la : Nat) (config : ReserveConfig) :
    (projectInstruction th ii ts pidx instr ca
      (.initReserve la config)).properties.length = 10 ∧
    (projectInstruction th ii ts pidx instr ca
      (.initReserve la config)).properties.map (fun p => (p.key, p.parent_key)) =
      [("liquidity_amount", ""),
       ("flash_loan_fee_wad", "fees"),
       ("borrow_fee_wad", "config/fees"),
       ("host_fee_percentage", "config/fees"),
       ("liquidation_threshold", "config"),
       ("loan_to_value_ratio", "config"),
       ("max_borrow_rate", "config"),
       ("min_borrow_rate", "config"),
       ("optimal_borrow_rate", "config"),
       ("optimal_utilization_rate", "config")] :=
  ⟨rfl, rfl⟩

/-- Claim C4 (code bug): the RefreshObligation arm of the source does
not emit an empty property list — it emits exactly one property keyed
`collateral_amount` whose value renders the unbound source identifier
of that name (here the explicit `collateral_amount` argument), both at
the decoded-variant level and end to end on the tag-7 payload. -/
theorem refreshObligation_emits_property :
    (∀ (th : String) (ii ts pidx : Int) (instr : Instruction) (ca : Nat),
      (projectInstruction th ii ts pidx instr ca
        LendingInstruction.refreshObligation).properties.map
        (fun p => (p.key, p.value, p.parent_key)) =
        [("collateral_amount", toString ca, "")]) ∧
    ((process_native_token_lending_instruction "TX" 0 [7] 0 0
        sampleInstruction 7).fst.map
      (fun s => s.properties.map fun p => (p.key, p.value, p.parent_key))) =
      some [("collateral_amount", "7", "")] :=
  ⟨fun _ _ _ _ _ _ => rfl, rfl⟩

/-- Claim C5 (code bug): at a concrete successfully decoded call, the
returned InstructionFunction does not echo the context parameters — its
fields are copied from the unbound source identifier `instruction`
(here `sampleInstruction`) — while every InstructionProperty does echo
the context parameters. -/
theorem function_record_ignores_context :
    ∃ s,
      (process_native_token_lending_instruction "TX1" 2
        [13, 9, 0, 0, 0, 0, 0, 0, 0] 5 (-1) sampleInstruction 0).fst = some s ∧
      s.function.transaction_hash = "OTHER" ∧
      s.function.transaction_hash ≠ "TX1" ∧
      s.function.tx_instruction_id = 9 ∧
      s.function.tx_instruction_id ≠ 2 ∧
      s.function.parent_index = 4 ∧
      s.function.parent_index ≠ -1 ∧
      s.function.timestamp = 77 ∧
      s.function.timestamp ≠ 5 ∧
      s.properties.map
        (fun p => (p.transaction_hash, p.tx_instruction_id, p.parent_index, p.timestamp)) =
        [("TX1", 2, -1, 5)] := by
  refine ⟨_, rfl, rfl, by decide, rfl, by decide, rfl, by decide, rfl, by decide, rfl⟩

set_option maxRecDepth 8192 in
/-- Counterexample to claim C6 as stated: at a concrete failing call
the single diagnostic message is emitted, but neither the transaction
hash of the call nor its instruction index occurs in the message. -/
theorem diagnostic_lacks_context_cex :
    (process_native_token_lending_instruction "Z9" 2 [255] 0 0
      sampleInstruction 0).snd = [unrecognisedMessage] ∧
    ¬ ("Z9".data <:+: unrecognisedMessage.data) ∧
    ¬ ((toString (2 : Int)).data <:+: unrecognisedMessage.data) :=
  ⟨rfl, by decide, by decide⟩

/-- Claim C6 as amended: on every decode failure the single diagnostic
report is the fixed message naming the processor module (and,
mistakenly, the token swap program); it carries neither the transaction
hash nor the instruction index of the failing call. -/
theorem diagnostic_fixed_message (th : String) (ii : Int) (data : List Nat)
    (ts pidx : Int) (instr : Instruction) (ca : Nat)
    (h : LendingInstruction.unpack data =
      .error .unrecognizedOrMalformedInstruction) :
    (process_native_token_lending_instruction th ii data ts pidx instr ca).snd =
      [unrecognisedMessage] := by
  simp [process_native_token_lending_instruction, h]

/-- Witness for the amended claim C6 at a concrete failing buffer. -/
theorem diagnostic_fixed_message_witness :
    (process_native_token_lending_instruction "A" 0 [255] 0 0
      sampleInstruction 0).snd = [unrecognisedMessage] :=
  diagnostic_fixed_message "A" 0 [255] 0 0 sampleInstruction 0 rfl

/-- Claim C7: the projection is deterministic — two invocations on the
same inputs yield identical output. In the embedding the source is a
pure function of its arguments (it reads no state besides them), so
equality of the two invocations holds definitionally. -/
theorem projection_deterministic (th : String) (ii : Int) (data : List Nat)
    (ts pidx : Int) (instr : Instruction) (ca : Nat) :
    process_native_token_lending_instruction th ii data ts pidx instr ca =
      process_native_token_lending_instruction th ii data ts pidx instr ca := rfl

/-- Claim C8: every property value in the output is the canonical
string rendering of the corresponding source field — decimal for the
integer fields and base58 public key text for `owner`,
`quote_currency` and `new_owner` — as listed by `specRenderedValues`. -/
theorem values_rendered_canonically (th : String) (ii ts pidx : Int)
    (instr : Instruction) (ca : Nat) (li : LendingInstruction) :
    (projectInstruction th ii ts pidx instr ca li).properties.map
      (fun p => p.value) = specRenderedValues ca li := by
  cases li <;> rfl

/-- Claim C9: with context transaction hash TX1, instruction index 2,
parent index -1 and any timestamp, a payload decoding to
DepositReserveLiquidity with liquidity amount 500 projects to an
InstructionFunction named deposit-reserve-liquidity plus exactly one
property (key `liquidity_amount`, value `500`, empty parent key). -/
theorem deposit_scenario (T : Int) (instr : Instruction) (ca : Nat)
    (data : List Nat)
    (h : LendingInstruction.unpack data = .ok (.depositReserveLiquidity 500)) :
    ∃ s,
      (process_native_token_lending_instruction "TX1" 2 data T (-1)
        instr ca).fst = some s ∧
      s.function.function_name = "deposit-reserve-liquidity" ∧
      s.properties.map (fun p => (p.key, p.value, p.parent_key)) =
        [("liquidity_amount", "500", "")] := by
  refine ⟨projectInstruction "TX1" 2 T (-1) instr ca
    (.depositReserveLiquidity 500), ?_, rfl, rfl⟩
  simp [process_native_token_lending_instruction, h]

/-- Witness for claim C9 at the concrete tag-4 payload encoding the
amount 500 in little-endian. -/
theorem deposit_scenario_witness :
    ∃ s,
      (process_native_token_lending_instruction "TX1" 2
        [4, 244, 1, 0, 0, 0, 0, 0, 0] 11 (-1) sampleInstruction 0).fst = some s ∧
      s.function.function_name = "deposit-reserve-liquidity" ∧
      s.properties.map (fun p => (p.key, p.value, p.parent_key)) =
        [("liquidity_amount", "500", "")] :=
  deposit_scenario 11 sampleInstruction 0 [4, 244, 1, 0, 0, 0, 0, 0, 0] rfl

/-- Claim C10: within any single projected InstructionSet, every
property record carries the same transaction hash, instruction index,
parent index and timestamp, each copied from the corresponding
parameter of the call — the tuple list is a constant replica of the
parameter tuple. -/
theorem properties_share_context (th : String) (ii ts pidx : Int)
    (instr : Instruction) (ca : Nat) (li : LendingInstruction) :
    (projectInstruction th ii ts pidx instr ca li).properties.map
      (fun p => (p.tx_instruction_id, p.transaction_hash, p.parent_index, p.timestamp)) =
      List.replicate
        (projectInstruction th ii ts pidx instr ca li).properties.length
        (ii, th, pidx, ts) := by
  cases li <;> rfl
